import Mathlib

/-!
# Authentication core of `mini-project`

A shallow embedding of `src/app.js` (the register / verify-otp / resend-otp /
login handlers and `generateOtp`) and of `src/middleware/authorizeRoles.js`,
followed by the properties proved about them.

Conventions of the embedding:

* a field of a JSON request body is a `JsVal` (`undefined` stands for an absent
  key); the handlers test such values for truthiness and with `===`, so both
  operations are defined on `JsVal`;
* the user collection is a `List User`; a document is identified by its
  position in the list, `save()` on a fetched document overwrites that position
  and `save()` on a new document appends it;
* everything a handler reads from outside (clock, `Math.random()`, bcrypt, jwt,
  whether the store and the mailer throw) is a field of `Env`;
* a handler returns an `Outcome`: the response it writes, the store afterwards
  and the notifications it dispatched.
-/

namespace MiniProject

/-! ## JavaScript values -/

/-- The JSON values a request body field can hold that the handlers inspect:
`undefined` (key absent), `null`, booleans, finite numbers and strings. -/
inductive JsVal where
  | undefined
  | null
  | bool (b : Bool)
  | num (q : ℚ)
  | str (s : String)
  deriving DecidableEq

namespace JsVal

/-- JavaScript truthiness (`!v` is the negation of this). -/
def truthy : JsVal → Bool
  | undefined => false
  | null => false
  | bool b => b
  | num q => decide (q ≠ 0)
  | str s => decide (s ≠ "")

/-- The operator `===` on the values above. -/
def strictEq (a b : JsVal) : Bool := decide (a = b)

/-- The operator `a || b`. -/
def orElse (a b : JsVal) : JsVal := if a.truthy then a else b

end JsVal

/-- The stored `otpExpiry` field: absent, `null`, or a `Date` given by its
milliseconds since the epoch. -/
inductive Expiry where
  | undefined
  | null
  | date (ms : Int)
  deriving DecidableEq

/-- The comparison `expiry < new Date()` where the right-hand date has time
value `now`: both sides are converted to numbers, `undefined` to `NaN` (every
comparison false) and `null` to `0`. -/
def Expiry.ltDate : Expiry → Int → Bool
  | .undefined, _ => false
  | .null, now => decide (0 < now)
  | .date t, now => decide (t < now)

/-! ## Data model -/

/-- Modelled from the spec: the user record of section 3 (`models/User` is not
among the sources); `id` is the document's `_id`. -/
structure User where
  id : Nat
  name : JsVal
  address : JsVal
  gender : JsVal
  age : JsVal
  phone : JsVal
  email : JsVal
  username : JsVal
  password : String
  otp : JsVal
  otpExpiry : Expiry
  isVerified : Bool
  role : JsVal
  deriving DecidableEq

/-- The payload `{ id, role }` of a bearer token. -/
structure Claims where
  id : Nat
  role : JsVal
  deriving DecidableEq

/-- What a handler reads from its surroundings during one request. -/
structure Env where
  /-- The value of `Date.now()` -/
  now : Int
  /-- The value of `Math.random()`, a binary64 number given by its exact value -/
  random : ℚ
  /-- The `_id` given to a document created during the request -/
  newId : Nat
  /-- The function `bcrypt.hash(·, 10)` on strings -/
  hash : String → String
  /-- The function `bcrypt.compare(plain, digest)` on strings -/
  compare : String → String → Bool
  /-- The function `jwt.sign(payload, JWT_SECRET, { expiresIn: "1h" })` at a given time,
  with `JWT_SECRET` configured -/
  sign : Claims → Int → String
  /-- Whether `User.findOne` resolves (it throws otherwise) -/
  findOk : Bool
  /-- Whether `save()` resolves (it throws otherwise) -/
  saveOk : Bool
  /-- Whether `sendOtp` resolves (it throws otherwise) -/
  sendOk : Bool

/-- The JSON body written with `res.status(..).json(..)`. -/
structure Response where
  status : Nat
  message : String
  token : Option String
  role : Option JsVal
  username : Option JsVal
  deriving DecidableEq

/-- The response `res.status(status).json({ message })`. -/
def Response.msg (status : Nat) (message : String) : Response :=
  ⟨status, message, none, none, none⟩

/-- The result of handling one request. -/
structure Outcome where
  res : Response
  store : List User
  sent : List (JsVal × String)
  deriving DecidableEq

/-- The `catch` branch shared by the handlers. -/
def serverError (store : List User) : Outcome :=
  ⟨Response.msg 500 "Server error", store, []⟩

/-! ## Credential store -/

/-- Modelled from the spec: the store's `findBy...` lookups (`models/User` is
not among the sources): the first document satisfying the filter, with its
position. -/
def findOne (p : User → Bool) : List User → Option (Nat × User)
  | [] => none
  | u :: us => if p u then some (0, u) else (findOne p us).map fun r => (r.1 + 1, r.2)

/-- The filter `{ username }`. -/
def byUsername (username : JsVal) (u : User) : Bool :=
  JsVal.strictEq u.username username

/-- The filter `{ username, email }`. -/
def byUsernameAndEmail (username email : JsVal) (u : User) : Bool :=
  JsVal.strictEq u.username username && JsVal.strictEq u.email email

/-! ## OTP helper -/

/-- Rounding of a rational to the nearest integer, a tie going to the even
neighbour. -/
def roundHalfEven (x : ℚ) : Int :=
  if x - ⌊x⌋ < 1 / 2 then ⌊x⌋
  else if 1 / 2 < x - ⌊x⌋ then ⌊x⌋ + 1
  else if ⌊x⌋ % 2 = 0 then ⌊x⌋ else ⌊x⌋ + 1

/-- The binary exponent that fixes the spacing of the binary64 numbers around
`q`: `floor (log2 |q|)`, and `-1022` throughout the subnormal range. -/
def binade (q : ℚ) : Int := max (Int.log 2 |q|) (-1022)

/-- The binary64 number nearest to the exact value `q` (round to nearest, ties
to even): JavaScript's `*` and `+` return this rounding of the exact product
and sum. Neighbouring binary64 numbers around `q` are `2 ^ (binade q - 52)`
apart. Overflow to `Infinity` is left out: every operand below stays under
`2 ^ 20`. -/
def roundDouble (q : ℚ) : ℚ :=
  roundHalfEven (q / 2 ^ (binade q - 52)) * 2 ^ (binade q - 52)

/-- The number `Math.floor(100000 + r * 900000)` for the sample `r` of
`Math.random()`, a binary64 number given by its exact value: the product and
then the sum are rounded to binary64, `Math.floor` is exact. -/
def otpNumber (r : ℚ) : Int := ⌊roundDouble (100000 + roundDouble (r * 900000))⌋

/-- The helper `generateOtp`: the decimal string of `otpNumber`. -/
def generateOtp (r : ℚ) : String := toString (otpNumber r)

/-- Five minutes in milliseconds, `5 * 60 * 1000`. -/
def otpWindow : Int := 5 * 60 * 1000

/-! ## Handlers of `src/app.js` -/

/-- The body of `POST /api/auth/register`. -/
structure RegisterBody where
  name : JsVal
  address : JsVal
  gender : JsVal
  age : JsVal
  phone : JsVal
  email : JsVal
  username : JsVal
  password : JsVal
  role : JsVal

/-- The document built by `new User({ ... })` in the register handler. -/
def newUser (env : Env) (b : RegisterBody) (hashedPassword : String) : User where
  id := env.newId
  name := b.name
  address := b.address
  gender := b.gender
  age := b.age
  phone := b.phone
  email := b.email
  username := b.username
  password := hashedPassword
  otp := .str (generateOtp env.random)
  otpExpiry := .date (env.now + otpWindow)
  isVerified := false
  role := b.role.orElse (.str "recipient")

/-- The handler of `POST /api/auth/register`; `bcrypt.hash` throws on a password
that is not a string, and a mailer failure comes after the document is saved. -/
def register (env : Env) (store : List User) (b : RegisterBody) : Outcome :=
  if !b.username.truthy || !b.password.truthy || !b.email.truthy then
    ⟨Response.msg 400 "Username, password, and email are required", store, []⟩
  else if !env.findOk then serverError store
  else
    match findOne (byUsername b.username) store with
    | some _ => ⟨Response.msg 400 "Username already exists", store, []⟩
    | none =>
      match b.password with
      | .str pw =>
        let user := newUser env b (env.hash pw)
        if !env.saveOk then serverError store
        else if !env.sendOk then ⟨Response.msg 500 "Server error", store ++ [user], []⟩
        else ⟨Response.msg 201 "OTP sent to email", store ++ [user],
              [(b.email, generateOtp env.random)]⟩
      | _ => serverError store

/-- The three assignments `user.isVerified = true; user.otp = null;
user.otpExpiry = null` of the verify-otp handler. -/
def markVerified (user : User) : User :=
  { user with isVerified := true, otp := .null, otpExpiry := .null }

/-- The body of `POST /api/auth/verify-otp`. -/
structure VerifyBody where
  username : JsVal
  otp : JsVal

/-- The handler of `POST /api/auth/verify-otp`. -/
def verifyOtp (env : Env) (store : List User) (b : VerifyBody) : Outcome :=
  if !env.findOk then serverError store
  else
    match findOne (byUsername b.username) store with
    | none => ⟨Response.msg 404 "User not found", store, []⟩
    | some (i, user) =>
      if user.isVerified then ⟨Response.msg 400 "Already verified", store, []⟩
      else if !JsVal.strictEq user.otp b.otp || user.otpExpiry.ltDate env.now then
        ⟨Response.msg 400 "Invalid or expired OTP", store, []⟩
      else
        if !env.saveOk then serverError store
        else ⟨Response.msg 200 "OTP verified successfully", store.set i (markVerified user), []⟩

/-- The two assignments `user.otp = newOtp; user.otpExpiry = newOtpExpiry` of
the resend-otp handler. -/
def rotateOtp (user : User) (newOtp : String) (newOtpExpiry : Int) : User :=
  { user with otp := .str newOtp, otpExpiry := .date newOtpExpiry }

/-- The body of `POST /api/auth/resend-otp`. -/
structure ResendBody where
  username : JsVal
  email : JsVal

/-- The handler of `POST /api/auth/resend-otp`. -/
def resendOtp (env : Env) (store : List User) (b : ResendBody) : Outcome :=
  if !env.findOk then serverError store
  else
    match findOne (byUsernameAndEmail b.username b.email) store with
    | none => ⟨Response.msg 404 "User not found", store, []⟩
    | some (i, user) =>
      if user.isVerified then ⟨Response.msg 400 "Already verified", store, []⟩
      else
        let newOtp := generateOtp env.random
        let user := rotateOtp user newOtp (env.now + otpWindow)
        if !env.saveOk then serverError store
        else if !env.sendOk then ⟨Response.msg 500 "Server error", store.set i user, []⟩
        else ⟨Response.msg 200 "OTP resent successfully", store.set i user, [(b.email, newOtp)]⟩

/-- The body of `POST /api/auth/login`. -/
structure LoginBody where
  username : JsVal
  password : JsVal
  loginAs : JsVal

/-- The two role checks of the login handler: `true` when neither of them
rejects the request. -/
def roleGate (loginAs role : JsVal) : Bool :=
  !(JsVal.strictEq loginAs (.str "admin") && !JsVal.strictEq role (.str "admin")) &&
  !(JsVal.strictEq loginAs (.str "user") &&
      (!JsVal.strictEq role (.str "donor") && !JsVal.strictEq role (.str "recipient")))

/-- The handler of `POST /api/auth/login`; `bcrypt.compare` throws on a password that is not a
string. -/
def login (env : Env) (store : List User) (b : LoginBody) : Outcome :=
  if !env.findOk then serverError store
  else
    match findOne (byUsername b.username) store with
    | none => ⟨Response.msg 404 "User not found", store, []⟩
    | some (_, user) =>
      match b.password with
      | .str pw =>
        if !env.compare pw user.password then ⟨Response.msg 401 "Invalid password", store, []⟩
        else if JsVal.strictEq b.loginAs (.str "admin") &&
            !JsVal.strictEq user.role (.str "admin") then
          ⟨Response.msg 403 "Access denied: not an admin", store, []⟩
        else if JsVal.strictEq b.loginAs (.str "user") &&
            (!JsVal.strictEq user.role (.str "donor") &&
              !JsVal.strictEq user.role (.str "recipient")) then
          ⟨Response.msg 403 "Access denied: not a regular user", store, []⟩
        else
          let token := env.sign ⟨user.id, user.role⟩ env.now
          ⟨⟨200, "Login successful", some token, some user.role, some user.username⟩, store, []⟩
      | _ => serverError store

/-- The 200 response of the login handler for a record. -/
def loginOk (env : Env) (u : User) : Response :=
  ⟨200, "Login successful", some (env.sign ⟨u.id, u.role⟩ env.now), some u.role, some u.username⟩

/-! ## `src/middleware/authorizeRoles.js` -/

/-- The pieces of a character list between occurrences of `sep`, as
`String.prototype.split` with a one-character separator yields them. -/
def splitChars (sep : Char) : List Char → List (List Char)
  | [] => [[]]
  | c :: cs =>
    if c = sep then [] :: splitChars sep cs
    else
      match splitChars sep cs with
      | [] => [[c]]
      | seg :: segs => (c :: seg) :: segs

/-- The call `s.split(sep)` for a one-character separator. -/
def jsSplit (s : String) (sep : Char) : List String :=
  (splitChars sep s.data).map String.mk

/-- The call `s.startsWith(p)`. -/
def startsWith (s p : String) : Bool := p.data.isPrefixOf s.data

/-- What the filter did with a request: the response it wrote (if any), the
value it assigned to `req.user` (if any) and how often it called `next`. -/
structure FilterResult where
  response : Option Response
  user : Option Claims
  nextCalls : Nat
  deriving DecidableEq

/-- The filter returned by `authorizeRoles(allowedRoles)`, applied to a request
with the given `Authorization` header. `verify` is `jwt.verify(·, JWT_SECRET)`:
`none` when it throws; `next` itself does not throw. -/
def authorizeRoles (verify : String → Option Claims) (allowedRoles : List JsVal)
    (authHeader : Option String) : FilterResult :=
  match authHeader with
  | none => ⟨some (Response.msg 401 "Unauthorized: No token provided"), none, 0⟩
  | some h =>
    if h = "" || !startsWith h "Bearer " then
      ⟨some (Response.msg 401 "Unauthorized: No token provided"), none, 0⟩
    else
      match (jsSplit h ' ')[1]? with
      | none => ⟨some (Response.msg 401 "Unauthorized: Invalid token"), none, 0⟩
      | some token =>
        match verify token with
        | none => ⟨some (Response.msg 401 "Unauthorized: Invalid token"), none, 0⟩
        | some decoded =>
          if !allowedRoles.contains decoded.role then
            ⟨some (Response.msg 403 "Forbidden: Insufficient permissions"), none, 0⟩
          else ⟨none, some decoded, 1⟩

/-! ## Sample data used to instantiate the theorems -/

/-- A sample environment: noon-ish clock `1000000`, random sample `0`, a toy
hasher that prefixes `h:` and collaborators that do not fail. -/
def sampleEnv : Env where
  now := 1000000
  random := 0
  newId := 7
  hash := fun s => "h:" ++ s
  compare := fun p d => decide (d = "h:" ++ p)
  sign := fun c t => "tok/" ++ toString c.id ++ "/" ++ toString t
  findOk := true
  saveOk := true
  sendOk := true

/-- A sample unverified record for `alice`, code `123456`, expiring at `1000000`. -/
def alice : User where
  id := 1
  name := .str "Alice"
  address := .undefined
  gender := .undefined
  age := .num 30
  phone := .undefined
  email := .str "a@x.com"
  username := .str "alice"
  password := "h:p1"
  otp := .str "123456"
  otpExpiry := .date 1000000
  isVerified := false
  role := .str "recipient"

/-- A sample verified administrator record. -/
def root : User where
  id := 2
  name := .str "Root"
  address := .undefined
  gender := .undefined
  age := .undefined
  phone := .undefined
  email := .str "r@x.com"
  username := .str "root"
  password := "h:p2"
  otp := .null
  otpExpiry := .null
  isVerified := true
  role := .str "admin"

/-- A sample store holding `root` and `alice`. -/
def sampleStore : List User := [root, alice]

/-- A sample registration body for `bob`, with no role. -/
def bobBody : RegisterBody where
  name := .str "Bob"
  address := .undefined
  gender := .undefined
  age := .undefined
  phone := .undefined
  email := .str "b@x.com"
  username := .str "bob"
  password := .str "p3"
  role := .undefined

/-- A sample unverified record for `dave` whose stored code is `100000`. -/
def dave : User where
  id := 3
  name := .str "Dave"
  address := .undefined
  gender := .undefined
  age := .undefined
  phone := .undefined
  email := .str "d@x.com"
  username := .str "dave"
  password := "h:p4"
  otp := .str "100000"
  otpExpiry := .date 1100000
  isVerified := false
  role := .str "donor"

/-- A sample environment whose random sample is `1/2`. -/
def laterEnv : Env := { sampleEnv with random := 1 / 2 }

/-- A sample verifier: the token `good` decodes to a donor's claims, every
other token is rejected. -/
def sampleVerify (token : String) : Option Claims :=
  if token = "good" then some ⟨5, .str "donor"⟩ else none

/-! ## Lemmas on the store -/

theorem findOne_some {p : User → Bool} {l : List User} {i : Nat} {u : User}
    (h : findOne p l = some (i, u)) : l[i]? = some u ∧ p u = true := by
  induction l generalizing i with
  | nil => simp [findOne] at h
  | cons a as ih =>
    unfold findOne at h
    by_cases hp : p a = true
    · simp only [hp, if_true, Option.some.injEq, Prod.mk.injEq] at h
      obtain ⟨rfl, rfl⟩ := h
      simp [hp]
    · simp only [hp, Bool.false_eq_true, if_false, Option.map_eq_some', Prod.mk.injEq] at h
      obtain ⟨⟨j, v⟩, hj, rfl, rfl⟩ := h
      simpa using ih hj

theorem findOne_set {p : User → Bool} {l : List User} {i : Nat} {u v : User}
    (h : findOne p l = some (i, u)) (hv : p v = true) :
    findOne p (l.set i v) = some (i, v) := by
  induction l generalizing i with
  | nil => simp [findOne] at h
  | cons a as ih =>
    unfold findOne at h
    by_cases hp : p a = true
    · simp only [hp, if_true, Option.some.injEq, Prod.mk.injEq] at h
      obtain ⟨rfl, rfl⟩ := h
      simp [findOne, hv]
    · simp only [hp, Bool.false_eq_true, if_false, Option.map_eq_some', Prod.mk.injEq] at h
      obtain ⟨⟨j, w⟩, hj, rfl, rfl⟩ := h
      simp [findOne, hp, ih hj]

/-! ## verify-otp -/

/-- C1: for a stored unverified record found by the request's username, a
verify-otp request whose otp is strictly equal to the stored one and whose
stored expiry `t` is not before the current time responds 200; the persisted
record is the old one with `isVerified = true`, `otp = null`,
`otpExpiry = null` and nothing else changed (no other document changes
either); and every later verify-otp request for that username, whatever its
otp, responds 400 "Already verified". -/
theorem verifyOtp_success (env : Env) (store : List User) (b : VerifyBody)
    (i : Nat) (u : User) (t : Int)
    (hfind : findOne (byUsername b.username) store = some (i, u))
    (hunv : u.isVerified = false)
    (hotp : JsVal.strictEq u.otp b.otp = true)
    (hexp : u.otpExpiry = .date t) (hnow : env.now ≤ t)
    (hfindOk : env.findOk = true) (hsaveOk : env.saveOk = true) :
    (verifyOtp env store b).res = Response.msg 200 "OTP verified successfully" ∧
    (verifyOtp env store b).store[i]? =
      some { u with isVerified := true, otp := .null, otpExpiry := .null } ∧
    (verifyOtp env store b).store.length = store.length ∧
    (∀ j, j ≠ i → (verifyOtp env store b).store[j]? = store[j]?) ∧
    ∀ (env2 : Env) (b2 : VerifyBody), env2.findOk = true → b2.username = b.username →
      (verifyOtp env2 (verifyOtp env store b).store b2).res =
        Response.msg 400 "Already verified" := by
  have hlt : (Expiry.date t).ltDate env.now = false := by
    simp [Expiry.ltDate, hnow]
  have hout : verifyOtp env store b =
      ⟨Response.msg 200 "OTP verified successfully", store.set i (markVerified u), []⟩ := by
    simp [verifyOtp, hfind, hunv, hotp, hexp, hlt, hfindOk, hsaveOk]
  obtain ⟨hget, hp⟩ := findOne_some hfind
  have hi : i < store.length := by
    rcases Nat.lt_or_ge i store.length with h | h
    · exact h
    · rw [List.getElem?_eq_none h] at hget; cases hget
  have hp2 : byUsername b.username (markVerified u) = true := by
    simpa [byUsername, markVerified] using hp
  rw [hout]
  refine ⟨rfl, ?_, ?_, ?_, ?_⟩
  · simp [List.getElem?_set, hi, markVerified]
  · simp
  · intro j hj
    simp [List.getElem?_set, Ne.symm hj]
  · intro env2 b2 h2 hname
    have hf := findOne_set hfind hp2
    have hv : (markVerified u).isVerified = true := rfl
    simp [verifyOtp, h2, hname, hf, hv]

/-- A concrete instance: `alice` presents her code at the very
instant it expires. -/
theorem verifyOtp_success_witness :
    (verifyOtp sampleEnv sampleStore ⟨.str "alice", .str "123456"⟩).res =
      Response.msg 200 "OTP verified successfully" ∧
    (verifyOtp sampleEnv sampleStore ⟨.str "alice", .str "123456"⟩).store[1]? =
      some { alice with isVerified := true, otp := .null, otpExpiry := .null } :=
  have h := verifyOtp_success sampleEnv sampleStore ⟨.str "alice", .str "123456"⟩ 1 alice
    1000000 (by decide) (by decide) (by decide) (by decide) (by decide) (by decide) (by decide)
  ⟨h.1, h.2.1⟩

/-- C2: for a stored unverified record found by the request's username, a
verify-otp request whose otp is not strictly equal to the stored otp, or whose
stored expiry is strictly before the current time, is answered 400
"Invalid or expired OTP" and leaves the store as it was; a matching otp
presented at a time equal to the expiry is not rejected (it is answered 200 when
the save goes through). -/
theorem verifyOtp_reject (env : Env) (store : List User) (b : VerifyBody)
    (i : Nat) (u : User)
    (hfind : findOne (byUsername b.username) store = some (i, u))
    (hunv : u.isVerified = false)
    (hfindOk : env.findOk = true) :
    ((JsVal.strictEq u.otp b.otp = false ∨ ∃ t, u.otpExpiry = .date t ∧ t < env.now) →
      verifyOtp env store b = ⟨Response.msg 400 "Invalid or expired OTP", store, []⟩) ∧
    (JsVal.strictEq u.otp b.otp = true → u.otpExpiry = .date env.now →
      (verifyOtp env store b).res ≠ Response.msg 400 "Invalid or expired OTP" ∧
      (env.saveOk = true →
        (verifyOtp env store b).res = Response.msg 200 "OTP verified successfully")) := by
  refine ⟨?_, ?_⟩
  · rintro (hne | ⟨t, ht, hlt⟩)
    · simp [verifyOtp, hfind, hunv, hfindOk, hne]
    · have : u.otpExpiry.ltDate env.now = true := by simp [ht, Expiry.ltDate, hlt]
      simp [verifyOtp, hfind, hunv, hfindOk, this]
  · intro heq hexp
    have hlt : u.otpExpiry.ltDate env.now = false := by simp [hexp, Expiry.ltDate]
    cases hs : env.saveOk <;>
      simp [verifyOtp, hfind, hunv, hfindOk, heq, hlt, hs, serverError, Response.msg]

/-- A concrete instance: a wrong code for `alice` is refused and the
store keeps its contents. -/
theorem verifyOtp_reject_witness :
    verifyOtp sampleEnv sampleStore ⟨.str "alice", .str "000000"⟩ =
      ⟨Response.msg 400 "Invalid or expired OTP", sampleStore, []⟩ :=
  (verifyOtp_reject sampleEnv sampleStore ⟨.str "alice", .str "000000"⟩ 1 alice
    (by decide) (by decide) (by decide)).1 (Or.inl (by decide))

/-! ## login -/

/-- C3, as stated, fails: `alice` is unverified, yet her login with the right
password is answered 200 and carries a token. -/
theorem login_unverified_gets_token :
    findOne (byUsername (.str "alice")) sampleStore = some (1, alice) ∧
    alice.isVerified = false ∧
    (login sampleEnv sampleStore ⟨.str "alice", .str "p1", .str "user"⟩).res.status = 200 ∧
    (login sampleEnv sampleStore ⟨.str "alice", .str "p1", .str "user"⟩).res.token =
      some "tok/1/1000000" := by
  decide

/-- C3 amended: login does not consult `isVerified`. For an unverified record
found by the request's username, login answers 200 exactly when the password is
a string that matches the stored hash and the role gate passes, and a token is
returned exactly when the answer is 200. -/
theorem login_unverified (env : Env) (store : List User) (b : LoginBody)
    (i : Nat) (u : User)
    (hfind : findOne (byUsername b.username) store = some (i, u))
    (hunv : u.isVerified = false)
    (hfindOk : env.findOk = true) :
    ((login env store b).res.status = 200 ↔
      (∃ pw, b.password = .str pw ∧ env.compare pw u.password = true) ∧
        roleGate b.loginAs u.role = true) ∧
    ((login env store b).res.token.isSome = true ↔ (login env store b).res.status = 200) ∧
    ((login env store b).res.status = 200 → (login env store b).res = loginOk env u) := by
  have _ := hunv
  unfold login
  simp only [hfindOk, hfind, Bool.not_true, Bool.false_eq_true, if_false]
  cases hp : b.password with
  | str pw =>
    cases hc : env.compare pw u.password <;>
    cases ha : JsVal.strictEq b.loginAs (.str "admin") <;>
    cases hra : JsVal.strictEq u.role (.str "admin") <;>
    cases hu : JsVal.strictEq b.loginAs (.str "user") <;>
    cases hrd : JsVal.strictEq u.role (.str "donor") <;>
    cases hrr : JsVal.strictEq u.role (.str "recipient") <;>
    simp [roleGate, Response.msg, loginOk, hc, ha, hra, hu, hrd, hrr]
  | undefined => simp [serverError, Response.msg]
  | null => simp [serverError, Response.msg]
  | bool _ => simp [serverError, Response.msg]
  | num _ => simp [serverError, Response.msg]

/-- A concrete instance: the unverified record `alice`. -/
theorem login_unverified_witness :
    (login sampleEnv sampleStore ⟨.str "alice", .str "p1", .str "user"⟩).res.status = 200 ↔
      (∃ pw, JsVal.str "p1" = .str pw ∧ sampleEnv.compare pw alice.password = true) ∧
        roleGate (.str "user") alice.role = true :=
  (login_unverified sampleEnv sampleStore ⟨.str "alice", .str "p1", .str "user"⟩ 1 alice
    (by decide) (by decide) (by decide)).1

/-- C5: for a record found by the request's username and a password that
matches the stored hash: `loginAs = "admin"` with a role other than `"admin"`
is answered 403 without a token, `loginAs = "user"` with a role that is neither
`"donor"` nor `"recipient"` (so also `"admin"`) is answered 403 without a token,
and in both modes a role that satisfies the gate is answered 200 with the token
signed over the record's id and role. -/
theorem login_role_gate (env : Env) (store : List User) (b : LoginBody)
    (i : Nat) (u : User) (pw : String)
    (hfind : findOne (byUsername b.username) store = some (i, u))
    (hfindOk : env.findOk = true)
    (hpw : b.password = .str pw) (hmatch : env.compare pw u.password = true) :
    (b.loginAs = .str "admin" → u.role ≠ .str "admin" →
      login env store b = ⟨Response.msg 403 "Access denied: not an admin", store, []⟩) ∧
    (b.loginAs = .str "user" → u.role ≠ .str "donor" → u.role ≠ .str "recipient" →
      login env store b = ⟨Response.msg 403 "Access denied: not a regular user", store, []⟩) ∧
    (b.loginAs = .str "user" → u.role = .str "admin" →
      login env store b = ⟨Response.msg 403 "Access denied: not a regular user", store, []⟩) ∧
    (b.loginAs = .str "admin" → u.role = .str "admin" →
      login env store b = ⟨loginOk env u, store, []⟩) ∧
    (b.loginAs = .str "user" → u.role = .str "donor" ∨ u.role = .str "recipient" →
      login env store b = ⟨loginOk env u, store, []⟩) ∧
    (loginOk env u).status = 200 ∧
    (loginOk env u).token = some (env.sign ⟨u.id, u.role⟩ env.now) ∧
    (Response.msg 403 "Access denied: not an admin").token = none ∧
    (Response.msg 403 "Access denied: not a regular user").token = none := by
  refine ⟨?_, ?_, ?_, ?_, ?_, rfl, rfl, rfl, rfl⟩
  · intro ha hr
    simp [login, hfind, hfindOk, hpw, hmatch, ha, JsVal.strictEq, hr]
  · intro ha hd hr
    simp [login, hfind, hfindOk, hpw, hmatch, ha, JsVal.strictEq, hd, hr]
  · intro ha hr
    simp [login, hfind, hfindOk, hpw, hmatch, ha, JsVal.strictEq, hr]
  · intro ha hr
    simp [login, hfind, hfindOk, hpw, hmatch, ha, JsVal.strictEq, hr, loginOk]
  · rintro ha (hr | hr) <;>
      simp [login, hfind, hfindOk, hpw, hmatch, ha, JsVal.strictEq, hr, loginOk]

/-- A concrete instance: `alice`, a recipient, is refused as admin. -/
theorem login_role_gate_witness :
    login sampleEnv sampleStore ⟨.str "alice", .str "p1", .str "admin"⟩ =
      ⟨Response.msg 403 "Access denied: not an admin", sampleStore, []⟩ :=
  (login_role_gate sampleEnv sampleStore ⟨.str "alice", .str "p1", .str "admin"⟩ 1 alice "p1"
    (by decide) (by decide) (by decide) (by decide)).1 (by decide) (by decide)

/-- C10: the role gate applies only to the literal values `"admin"` and
`"user"`: for a record found by the request's username, whatever its role, a
password matching the stored hash and a `loginAs` that is neither of the two
(an absent one included) is answered 200 with the token signed over the
record's id and role, and the record's role in the body. -/
theorem login_no_gate (env : Env) (store : List User) (b : LoginBody)
    (i : Nat) (u : User) (pw : String)
    (hfind : findOne (byUsername b.username) store = some (i, u))
    (hfindOk : env.findOk = true)
    (hpw : b.password = .str pw) (hmatch : env.compare pw u.password = true)
    (hadmin : b.loginAs ≠ .str "admin") (huser : b.loginAs ≠ .str "user") :
    login env store b = ⟨loginOk env u, store, []⟩ ∧
    (login env store b).res.status = 200 ∧
    (login env store b).res.token = some (env.sign ⟨u.id, u.role⟩ env.now) ∧
    (login env store b).res.role = some u.role := by
  have h : login env store b = ⟨loginOk env u, store, []⟩ := by
    simp [login, hfind, hfindOk, hpw, hmatch, JsVal.strictEq, hadmin, huser, loginOk]
  rw [h]
  exact ⟨rfl, rfl, rfl, rfl⟩

/-- A concrete instance: the administrator `root` logging in without a
`loginAs` field. -/
theorem login_no_gate_witness :
    login sampleEnv sampleStore ⟨.str "root", .str "p2", .undefined⟩ =
      ⟨loginOk sampleEnv root, sampleStore, []⟩ :=
  (login_no_gate sampleEnv sampleStore ⟨.str "root", .str "p2", .undefined⟩ 0 root "p2"
    (by decide) (by decide) (by decide) (by decide) (by decide) (by decide)).1

/-! ## Verified records are never touched -/

theorem lookup_set_of_unverified {p : User → Bool} {store : List User} {i j : Nat}
    {u w v : User} (hj : store[j]? = some u) (hv : u.isVerified = true)
    (hfind : findOne p store = some (i, w)) (hw : w.isVerified = false) :
    (store.set i v)[j]? = some u := by
  have hi := (findOne_some hfind).1
  have hne : i ≠ j := by
    rintro rfl
    rw [hj] at hi
    cases hi
    rw [hv] at hw
    cases hw
  simp [List.getElem?_set, hne, hj]

theorem lookup_append_of_some {store : List User} {j : Nat} {u : User} (v : User)
    (hj : store[j]? = some u) : (store ++ [v])[j]? = some u := by
  have hlt : j < store.length := by
    rcases Nat.lt_or_ge j store.length with h | h
    · exact h
    · rw [List.getElem?_eq_none h] at hj; cases hj
  rw [List.getElem?_append_left hlt, hj]

/-- C7: no request returns a verified record to unverified. Whatever the
environment (failing collaborators included) and whatever the body, after a
single register, verify-otp, resend-otp or login request every record that was
verified before is still stored at its place, unchanged: in particular still
verified, with its otp and otpExpiry as they were. -/
theorem verified_stays_verified (env : Env) (store : List User) (j : Nat) (u : User)
    (hj : store[j]? = some u) (hv : u.isVerified = true) :
    (∀ b, (register env store b).store[j]? = some u) ∧
    (∀ b, (verifyOtp env store b).store[j]? = some u) ∧
    (∀ b, (resendOtp env store b).store[j]? = some u) ∧
    (∀ b, (login env store b).store[j]? = some u) := by
  refine ⟨?_, ?_, ?_, ?_⟩
  · intro b
    unfold register
    split
    · exact hj
    · split
      · exact hj
      · split
        · exact hj
        · split
          · dsimp only
            split
            · exact hj
            · split <;> exact lookup_append_of_some _ hj
          · exact hj
  · intro b
    unfold verifyOtp
    split
    · exact hj
    · split
      · exact hj
      · rename_i i user hfind
        split
        · exact hj
        · rename_i hunv
          split
          · exact hj
          · split
            · exact hj
            · exact lookup_set_of_unverified hj hv hfind (by simpa using hunv)
  · intro b
    unfold resendOtp
    split
    · exact hj
    · split
      · exact hj
      · rename_i i user hfind
        split
        · exact hj
        · rename_i hunv
          dsimp only
          split
          · exact hj
          · split <;> exact lookup_set_of_unverified hj hv hfind (by simpa using hunv)
  · intro b
    unfold login
    split
    · exact hj
    · split
      · exact hj
      · split
        · split
          · exact hj
          · split
            · exact hj
            · split <;> exact hj
        · exact hj

/-- A concrete instance: the verified record `root` survives
a resend-otp request aimed at `alice`. -/
theorem verified_stays_verified_witness :
    (resendOtp sampleEnv sampleStore ⟨.str "alice", .str "a@x.com"⟩).store[0]? = some root :=
  (verified_stays_verified sampleEnv sampleStore 0 root (by decide) (by decide)).2.2.1 _

/-! ## register -/

theorem findOne_none {p : User → Bool} {l : List User} (h : ∀ u ∈ l, p u = false) :
    findOne p l = none := by
  induction l with
  | nil => rfl
  | cons a as ih =>
    have ha : p a = false := h a (List.mem_cons_self a as)
    have hrest : findOne p as = none := ih fun u hu => h u (List.mem_cons_of_mem a hu)
    simp [findOne, ha, hrest]

/-- C8: a register request whose username, password and email are non-empty
strings and whose username no stored record carries, with the store and the
notifier not failing, is answered 201 with a message only (no token); the store
afterwards is the old store followed by exactly one new record; that record is
unverified, holds the generated code as its (non-null) otp, expires at the
current time plus `5 * 60 * 1000` ms, stores the hash of the supplied password,
takes the supplied role or `"recipient"` when the role is omitted or empty; and
exactly one notification, carrying the same code, goes to the supplied email. -/
theorem register_success (env : Env) (store : List User) (b : RegisterBody)
    (un pw em : String)
    (hun : b.username = .str un) (hun0 : un ≠ "")
    (hpw : b.password = .str pw) (hpw0 : pw ≠ "")
    (hem : b.email = .str em) (hem0 : em ≠ "")
    (hfresh : ∀ u ∈ store, u.username ≠ .str un)
    (hfindOk : env.findOk = true) (hsaveOk : env.saveOk = true)
    (hsendOk : env.sendOk = true) :
    (register env store b).res = Response.msg 201 "OTP sent to email" ∧
    (register env store b).res.token = none ∧
    (register env store b).sent = [(.str em, generateOtp env.random)] ∧
    ∃ r : User, (register env store b).store = store ++ [r] ∧
      r.username = .str un ∧ r.email = .str em ∧
      r.isVerified = false ∧
      r.otp = .str (generateOtp env.random) ∧ r.otp ≠ .null ∧
      r.otpExpiry = .date (env.now + 5 * 60 * 1000) ∧
      r.password = env.hash pw ∧
      (b.role = .undefined ∨ b.role = .str "" → r.role = .str "recipient") ∧
      (∀ s, s ≠ "" → b.role = .str s → r.role = .str s) := by
  have hnone : findOne (byUsername b.username) store = none := by
    apply findOne_none
    intro u hu
    simpa [byUsername, JsVal.strictEq, hun] using hfresh u hu
  have hout : register env store b =
      ⟨Response.msg 201 "OTP sent to email", store ++ [newUser env b (env.hash pw)],
        [(.str em, generateOtp env.random)]⟩ := by
    unfold register
    rw [hnone]
    simp [hun, hpw, hem, JsVal.truthy, hun0, hpw0, hem0, hfindOk, hsaveOk, hsendOk]
  rw [hout]
  refine ⟨rfl, rfl, rfl, newUser env b (env.hash pw), rfl, hun, hem, rfl, rfl, ?_, rfl, rfl,
    ?_, ?_⟩
  · simp [newUser]
  · rintro (h | h) <;> simp [newUser, h, JsVal.orElse, JsVal.truthy]
  · intro s hs h
    simp [newUser, h, JsVal.orElse, JsVal.truthy, hs]

/-- A concrete instance: `bob` registers into the sample store. -/
theorem register_success_witness :
    (register sampleEnv sampleStore bobBody).res = Response.msg 201 "OTP sent to email" ∧
    (register sampleEnv sampleStore bobBody).sent =
      [(.str "b@x.com", generateOtp sampleEnv.random)] :=
  have h := register_success sampleEnv sampleStore bobBody "bob" "p3" "b@x.com" rfl (by decide)
    rfl (by decide) rfl (by decide) (by decide) rfl rfl rfl
  ⟨h.1, h.2.2.1⟩

/-! ## generateOtp -/

theorem repr_six_digits (n : Nat) (hlo : 100000 ≤ n) (hhi : n ≤ 999999) :
    Nat.repr n = String.mk [Nat.digitChar (n / 100000), Nat.digitChar (n / 10000 % 10),
      Nat.digitChar (n / 1000 % 10), Nat.digitChar (n / 100 % 10), Nat.digitChar (n / 10 % 10),
      Nat.digitChar (n % 10)] := by
  have hfuel : n + 1 = (n - 5) + 1 + 1 + 1 + 1 + 1 + 1 := by omega
  have h1 : n / 10 ≠ 0 := by omega
  have h2 : n / 10 / 10 ≠ 0 := by omega
  have h3 : n / 10 / 10 / 10 ≠ 0 := by omega
  have h4 : n / 10 / 10 / 10 / 10 ≠ 0 := by omega
  have h5 : n / 10 / 10 / 10 / 10 / 10 ≠ 0 := by omega
  have h6 : n / 10 / 10 / 10 / 10 / 10 / 10 = 0 := by omega
  have e1 : n / 10 / 10 = n / 100 := by omega
  have e2 : n / 10 / 10 / 10 = n / 1000 := by omega
  have e3 : n / 10 / 10 / 10 / 10 = n / 10000 := by omega
  have e4 : n / 10 / 10 / 10 / 10 / 10 = n / 100000 := by omega
  have e5 : n / 100000 % 10 = n / 100000 := by omega
  unfold Nat.repr Nat.toDigits
  rw [hfuel]
  simp only [Nat.toDigitsCore, h1, h2, h3, h4, h5, h6, if_false, if_true, List.asString]
  rw [e4, e3, e2, e1, e5]

theorem digitChar_isDigit (d : Nat) (h : d < 10) : (Nat.digitChar d).isDigit = true := by
  interval_cases d <;> decide

theorem digitChar_ne_zero (d : Nat) (h0 : 0 < d) (h : d < 10) : Nat.digitChar d ≠ '0' := by
  interval_cases d <;> decide

theorem roundHalfEven_floor_le (x : ℚ) : ⌊x⌋ ≤ roundHalfEven x := by
  unfold roundHalfEven
  split_ifs <;> omega

theorem roundHalfEven_le_floor_succ (x : ℚ) : roundHalfEven x ≤ ⌊x⌋ + 1 := by
  unfold roundHalfEven
  split_ifs <;> omega

theorem le_roundHalfEven {x : ℚ} {n : Int} (h : (n : ℚ) ≤ x) : n ≤ roundHalfEven x :=
  le_trans (Int.le_floor.mpr h) (roundHalfEven_floor_le x)

theorem roundHalfEven_le {x : ℚ} {n : Int} (h : x < (n : ℚ) + 1 / 2) : roundHalfEven x ≤ n := by
  have hf : ⌊x⌋ ≤ n := by
    have : ⌊x⌋ < n + 1 := by
      apply Int.floor_lt.mpr
      push_cast
      linarith
    omega
  rcases lt_or_eq_of_le hf with hlt | heq
  · have := roundHalfEven_le_floor_succ x
    omega
  · have hx : x - ⌊x⌋ < 1 / 2 := by
      rw [heq]
      linarith
    simp only [roundHalfEven, hx, if_true]
    exact hf

theorem roundHalfEven_eq {x : ℚ} {n : Int} (h1 : (n : ℚ) - 1 / 2 < x) (h2 : x < (n : ℚ) + 1 / 2) :
    roundHalfEven x = n := by
  apply le_antisymm (roundHalfEven_le h2)
  have hf : n - 1 ≤ ⌊x⌋ := by
    apply Int.le_floor.mpr
    push_cast
    linarith
  rcases lt_or_eq_of_le hf with hlt | heq
  · have := roundHalfEven_floor_le x
    omega
  · have hx : 1 / 2 < x - ⌊x⌋ := by
      rw [← heq]
      push_cast
      linarith
    have hx2 : ¬ (x - ⌊x⌋ < 1 / 2) := not_lt.mpr (le_of_lt hx)
    simp only [roundHalfEven, hx, hx2, if_true, if_false]
    omega

theorem binade_eq {q : ℚ} {e : Int} (hmin : -1022 ≤ e) (h1 : (2 : ℚ) ^ e ≤ q)
    (h2 : q < (2 : ℚ) ^ (e + 1)) : binade q = e := by
  have hq : 0 < q := lt_of_lt_of_le (by positivity) h1
  have habs : |q| = q := abs_of_pos hq
  have hl : Int.log 2 q = e := by
    apply le_antisymm
    · have := (Int.lt_zpow_iff_log_lt (R := ℚ) (b := 2) (by norm_num) hq).mp (by exact_mod_cast h2)
      omega
    · exact (Int.zpow_le_iff_le_log (R := ℚ) (b := 2) (by norm_num) hq).mp (by exact_mod_cast h1)
  unfold binade
  rw [habs, hl]
  exact max_eq_left hmin

theorem ulp_pos (e : Int) : (0 : ℚ) < 2 ^ e := by positivity

theorem le_roundDouble {q a : ℚ} {n : Int} (ha : a = n * 2 ^ (binade q - 52)) (h : a ≤ q) :
    a ≤ roundDouble q := by
  have hu := ulp_pos (binade q - 52)
  have hn : n ≤ roundHalfEven (q / 2 ^ (binade q - 52)) := by
    apply le_roundHalfEven
    rw [le_div_iff₀ hu, ← ha]
    exact h
  rw [ha]
  unfold roundDouble
  exact mul_le_mul_of_nonneg_right (by exact_mod_cast hn) (le_of_lt hu)

theorem roundDouble_le {q b : ℚ} {n : Int} (hb : b = n * 2 ^ (binade q - 52))
    (h : q < b + 2 ^ (binade q - 52) / 2) : roundDouble q ≤ b := by
  have hu := ulp_pos (binade q - 52)
  have hn : roundHalfEven (q / 2 ^ (binade q - 52)) ≤ n := by
    apply roundHalfEven_le
    rw [div_lt_iff₀ hu]
    calc q < b + 2 ^ (binade q - 52) / 2 := h
      _ = ((n : ℚ) + 1 / 2) * 2 ^ (binade q - 52) := by rw [hb]; ring
  rw [hb]
  unfold roundDouble
  exact mul_le_mul_of_nonneg_right (by exact_mod_cast hn) (le_of_lt hu)

theorem roundDouble_eq {q : ℚ} {e n : Int} (hmin : -1022 ≤ e) (h1 : (2 : ℚ) ^ e ≤ q)
    (h2 : q < (2 : ℚ) ^ (e + 1)) (hn1 : (n : ℚ) - 1 / 2 < q / 2 ^ (e - 52))
    (hn2 : q / 2 ^ (e - 52) < (n : ℚ) + 1 / 2) : roundDouble q = n * 2 ^ (e - 52) := by
  unfold roundDouble
  rw [binade_eq hmin h1 h2, roundHalfEven_eq hn1 hn2]

theorem roundDouble_zero : roundDouble 0 = 0 := by
  simp [roundDouble, roundHalfEven]

theorem binade_le {q : ℚ} {e : Int} (hq : 0 < q) (hmin : -1022 ≤ e) (h : q < (2 : ℚ) ^ (e + 1)) :
    binade q ≤ e := by
  have hl := (Int.lt_zpow_iff_log_lt (R := ℚ) (b := 2) (by norm_num) hq).mp (by exact_mod_cast h)
  unfold binade
  rw [abs_of_pos hq]
  exact max_le (by omega) hmin

theorem lt_two_zpow_binade (q : ℚ) (hq : 0 < q) : q < (2 : ℚ) ^ (binade q + 1) := by
  have h1 : q < (2 : ℚ) ^ (Int.log 2 q + 1) := by
    exact_mod_cast Int.lt_zpow_succ_log_self (R := ℚ) (b := 2) (by norm_num) q
  have h2 : Int.log 2 q + 1 ≤ binade q + 1 := by
    unfold binade
    rw [abs_of_pos hq]
    have := le_max_left (Int.log 2 q) (-1022)
    omega
  exact lt_of_lt_of_le h1 (zpow_le_zpow_right₀ (by norm_num) h2)

theorem product_bounds (r : ℚ) (h0 : 0 ≤ r) (h1 : r ≤ 1 - 1 / 2 ^ 53) :
    0 ≤ roundDouble (r * 900000) ∧ roundDouble (r * 900000) ≤ 900000 - 1 / 2 ^ 33 := by
  rcases eq_or_lt_of_le h0 with hz | hpos
  · rw [← hz, zero_mul, roundDouble_zero]
    norm_num
  have hq : 0 < r * 900000 := by positivity
  refine ⟨le_roundDouble (n := 0) (by simp) (le_of_lt hq), ?_⟩
  have hlt : r * 900000 < (2 : ℚ) ^ ((19 : Int) + 1) := by
    norm_num
    linarith
  have he := binade_le hq (by norm_num) hlt
  rcases eq_or_lt_of_le he with h19 | hlow
  · apply roundDouble_le (n := 900000 * 2 ^ 33 - 1)
    · rw [h19]
      norm_num
    · rw [h19]
      norm_num
      linarith
  · have hstep : roundDouble (r * 900000) ≤ (2 : ℚ) ^ (binade (r * 900000) + 1) := by
      apply roundDouble_le (n := 2 ^ 53)
      · have : binade (r * 900000) + 1 = 53 + (binade (r * 900000) - 52) := by ring
        rw [this, zpow_add₀ (by norm_num)]
        norm_num
      · have := lt_two_zpow_binade _ hq
        have := ulp_pos (binade (r * 900000) - 52)
        linarith
    have hmono : (2 : ℚ) ^ (binade (r * 900000) + 1) ≤ (2 : ℚ) ^ (19 : Int) :=
      zpow_le_zpow_right₀ (by norm_num) (by omega)
    have : (2 : ℚ) ^ (19 : Int) ≤ 900000 - 1 / 2 ^ 33 := by norm_num
    linarith

theorem sum_bounds (p : ℚ) (h0 : 0 ≤ p) (h1 : p ≤ 900000 - 1 / 2 ^ 33) :
    100000 ≤ roundDouble (100000 + p) ∧ roundDouble (100000 + p) ≤ 1000000 - 1 / 2 ^ 33 := by
  have hq : 0 < 100000 + p := by linarith
  have hhi : binade (100000 + p) ≤ 19 :=
    binade_le hq (by norm_num) (by norm_num; linarith)
  have hlo : 16 ≤ binade (100000 + p) := by
    have h := (Int.zpow_le_iff_le_log (R := ℚ) (b := 2) (x := 16) (by norm_num) hq).mp
      (by norm_num; linarith)
    unfold binade
    rw [abs_of_pos hq]
    exact le_trans h (le_max_left _ _)
  generalize hbe : binade (100000 + p) = e at hhi hlo
  have hlow : ∀ n : Int, (100000 : ℚ) = n * 2 ^ (e - 52) → 100000 ≤ roundDouble (100000 + p) :=
    fun n hn => le_roundDouble (by rw [hbe]; exact hn) (by linarith)
  have hupp : ∀ n : Int, (1000000 - 1 / 2 ^ 33 : ℚ) = n * 2 ^ (e - 52) →
      roundDouble (100000 + p) ≤ 1000000 - 1 / 2 ^ 33 :=
    fun n hn => roundDouble_le (by rw [hbe]; exact hn)
      (by have := ulp_pos (binade (100000 + p) - 52); linarith)
  interval_cases e
  · exact ⟨hlow (100000 * 2 ^ 36) (by norm_num), hupp ((1000000 * 2 ^ 33 - 1) * 2 ^ 3) (by norm_num)⟩
  · exact ⟨hlow (100000 * 2 ^ 35) (by norm_num), hupp ((1000000 * 2 ^ 33 - 1) * 2 ^ 2) (by norm_num)⟩
  · exact ⟨hlow (100000 * 2 ^ 34) (by norm_num), hupp ((1000000 * 2 ^ 33 - 1) * 2 ^ 1) (by norm_num)⟩
  · exact ⟨hlow (100000 * 2 ^ 33) (by norm_num), hupp (1000000 * 2 ^ 33 - 1) (by norm_num)⟩

theorem dyadic_le (m k : Nat) (hm : m < 2 ^ 53) (h1 : (m : ℚ) / 2 ^ k < 1) :
    (m : ℚ) / 2 ^ k ≤ 1 - 1 / 2 ^ 53 := by
  have hk : (0 : ℚ) < 2 ^ k := by positivity
  rcases Nat.lt_or_ge 53 k with hbig | hsmall
  · have h2 : (2 : ℚ) ^ 54 ≤ 2 ^ k := pow_le_pow_right₀ (by norm_num) hbig
    have hm2 : (m : ℚ) < 2 ^ 53 := by exact_mod_cast hm
    rw [div_le_iff₀ hk]
    have : (1 - 1 / 2 ^ 53 : ℚ) * 2 ^ k ≥ (1 / 2) * 2 ^ 54 := by
      apply mul_le_mul (by norm_num) h2 (by norm_num) (by norm_num)
    norm_num at this ⊢
    linarith
  · have hmk : m < 2 ^ k := by
      rw [div_lt_one hk] at h1
      exact_mod_cast h1
    have hle : (m : ℚ) + 1 ≤ 2 ^ k := by exact_mod_cast hmk
    have h2 : (2 : ℚ) ^ k ≤ 2 ^ 53 := pow_le_pow_right₀ (by norm_num) hsmall
    rw [div_le_iff₀ hk]
    have : (1 / 2 ^ 53 : ℚ) * 2 ^ k ≤ 1 := by
      rw [div_mul_eq_mul_div, one_mul, div_le_one (by positivity)]
      exact h2
    linarith

theorem otpNumber_bounds (m k : Nat) (hm : m < 2 ^ 53) (h1 : (m : ℚ) / 2 ^ k < 1) :
    100000 ≤ otpNumber (m / 2 ^ k) ∧ otpNumber (m / 2 ^ k) ≤ 999999 := by
  have hr0 : (0 : ℚ) ≤ m / 2 ^ k := by positivity
  obtain ⟨hp0, hp1⟩ := product_bounds _ hr0 (dyadic_le m k hm h1)
  obtain ⟨hs0, hs1⟩ := sum_bounds _ hp0 hp1
  unfold otpNumber
  constructor
  · apply Int.le_floor.mpr
    exact_mod_cast hs0
  · have : ⌊roundDouble (100000 + roundDouble ((m : ℚ) / 2 ^ k * 900000))⌋ < 1000000 := by
      apply Int.floor_lt.mpr
      push_cast
      have : (0 : ℚ) < 1 / 2 ^ 33 := by positivity
      linarith
    omega

theorem generateOtp_of_otpNumber (r : ℚ) (n : Nat) (h : otpNumber r = (n : Int)) :
    generateOtp r = Nat.repr n := by
  unfold generateOtp
  rw [h]
  rfl

theorem otpNumber_zero : otpNumber 0 = 100000 := by
  have hs : roundDouble (100000 + 0) = (100000 * 2 ^ 36 : Int) * 2 ^ ((16 : Int) - 52) :=
    roundDouble_eq (by norm_num) (by norm_num) (by norm_num) (by norm_num) (by norm_num)
  unfold otpNumber
  rw [zero_mul, roundDouble_zero, hs, Int.floor_eq_iff]
  norm_num

theorem generateOtp_zero : generateOtp 0 = "100000" := by
  rw [generateOtp_of_otpNumber 0 100000 otpNumber_zero]
  decide

theorem otpNumber_top : otpNumber (1048575 / 2 ^ 20) = 999999 := by
  have hp : roundDouble ((1048575 / 2 ^ 20 : ℚ) * 900000) =
      (7730933760000000 : Int) * 2 ^ ((19 : Int) - 52) :=
    roundDouble_eq (by norm_num) (by norm_num) (by norm_num) (by norm_num) (by norm_num)
  have hs : roundDouble (100000 + (7730933760000000 : Int) * 2 ^ ((19 : Int) - 52)) =
      (8589927219200000 : Int) * 2 ^ ((19 : Int) - 52) :=
    roundDouble_eq (by norm_num) (by norm_num) (by norm_num) (by norm_num) (by norm_num)
  unfold otpNumber
  rw [hp, hs, Int.floor_eq_iff]
  norm_num

theorem otpNumber_rounds_up : otpNumber (150119987579 / 2 ^ 52) = 100030 := by
  have hp : roundDouble ((150119987579 / 2 ^ 52 : ℚ) * 900000) =
      (8444249301318750 : Int) * 2 ^ ((4 : Int) - 52) :=
    roundDouble_eq (by norm_num) (by norm_num) (by norm_num) (by norm_num) (by norm_num)
  have hs : roundDouble (100000 + (8444249301318750 : Int) * 2 ^ ((4 : Int) - 52)) =
      (6874009257902080 : Int) * 2 ^ ((16 : Int) - 52) :=
    roundDouble_eq (by norm_num) (by norm_num) (by norm_num) (by norm_num) (by norm_num)
  unfold otpNumber
  rw [hp, hs, Int.floor_eq_iff]
  norm_num

theorem exact_floor_at : ⌊(100000 : ℚ) + 900000 * (150119987579 / 2 ^ 52)⌋ = 100029 := by
  rw [Int.floor_eq_iff]
  norm_num


/-- C9, as stated, fails on the binary64 arithmetic of the code: at the sample
`150119987579 / 2 ^ 52`, which lies in `[0, 1)`, the sum `100000 + r * 900000`
rounds up to `100030`, so `generateOtp` returns `"100030"`, while the decimal
string of the exact `floor(100000 + 900000 * r)` is `"100029"`. -/
theorem generateOtp_not_exact_floor :
    (0 : ℚ) ≤ 150119987579 / 2 ^ 52 ∧ (150119987579 / 2 ^ 52 : ℚ) < 1 ∧
    generateOtp (150119987579 / 2 ^ 52) = "100030" ∧
    toString ⌊(100000 : ℚ) + 900000 * (150119987579 / 2 ^ 52)⌋ = "100029" := by
  refine ⟨by norm_num, by norm_num, ?_, ?_⟩
  · rw [generateOtp_of_otpNumber _ 100030 otpNumber_rounds_up]
    decide
  · rw [exact_floor_at]
    decide

/-- C9 amended: for every binary64 sample `r = m / 2 ^ k` (`m < 2 ^ 53`) with
`0 ≤ r < 1`, `generateOtp` returns the decimal string of the integer
`floor(100000 + r * 900000)` as computed in binary64 (product and sum each
rounded to nearest, ties to even); that integer lies in `[100000, 999999]`, so
the string has exactly 6 characters, all of them decimal digits, the first not
`0`; `r = 0` gives `"100000"` and some such `r < 1` gives `"999999"`. -/
theorem generateOtp_spec (m k : Nat) (hm : m < 2 ^ 53) (h1 : (m : ℚ) / 2 ^ k < 1) :
    generateOtp (m / 2 ^ k) =
      toString ⌊roundDouble (100000 + roundDouble ((m : ℚ) / 2 ^ k * 900000))⌋ ∧
    100000 ≤ ⌊roundDouble (100000 + roundDouble ((m : ℚ) / 2 ^ k * 900000))⌋ ∧
    ⌊roundDouble (100000 + roundDouble ((m : ℚ) / 2 ^ k * 900000))⌋ ≤ 999999 ∧
    (∃ n : Nat, (n : Int) = ⌊roundDouble (100000 + roundDouble ((m : ℚ) / 2 ^ k * 900000))⌋ ∧
      generateOtp (m / 2 ^ k) =
        String.mk [Nat.digitChar (n / 100000), Nat.digitChar (n / 10000 % 10),
          Nat.digitChar (n / 1000 % 10), Nat.digitChar (n / 100 % 10),
          Nat.digitChar (n / 10 % 10), Nat.digitChar (n % 10)]) ∧
    (generateOtp (m / 2 ^ k)).length = 6 ∧
    (∀ c ∈ (generateOtp (m / 2 ^ k)).data, c.isDigit = true) ∧
    (generateOtp (m / 2 ^ k)).data.head? ≠ some '0' ∧
    generateOtp 0 = "100000" ∧
    ∃ m' k' : Nat, m' < 2 ^ 53 ∧ k' ≤ 1074 ∧ (m' : ℚ) / 2 ^ k' < 1 ∧
      generateOtp (m' / 2 ^ k') = "999999" := by
  obtain ⟨hlo, hhi⟩ := otpNumber_bounds m k hm h1
  obtain ⟨n, hn⟩ := Int.eq_ofNat_of_zero_le (show 0 ≤ otpNumber (m / 2 ^ k) by omega)
  have hnlo : 100000 ≤ n := by omega
  have hnhi : n ≤ 999999 := by omega
  have hrepr := generateOtp_of_otpNumber _ n hn
  have hdig := repr_six_digits n hnlo hnhi
  refine ⟨rfl, hlo, hhi, ⟨n, hn.symm, hrepr.trans hdig⟩, ?_, ?_, ?_, generateOtp_zero, ?_⟩
  · rw [hrepr, hdig]
    rfl
  · rw [hrepr, hdig]
    intro c hc
    simp only [List.mem_cons, List.mem_singleton, List.not_mem_nil, or_false] at hc
    rcases hc with rfl | rfl | rfl | rfl | rfl | rfl <;>
      exact digitChar_isDigit _ (by omega)
  · rw [hrepr, hdig]
    simp only [List.head?_cons, ne_eq, Option.some.injEq]
    exact digitChar_ne_zero _ (by omega) (by omega)
  · refine ⟨1048575, 20, by norm_num, by norm_num, by norm_num, ?_⟩
    have h : otpNumber ((1048575 : Nat) / 2 ^ 20) = ((999999 : Nat) : Int) := by
      have := otpNumber_top
      push_cast
      exact this
    rw [generateOtp_of_otpNumber _ 999999 h]
    decide

/-- A concrete instance: the sample `1 / 2` yields a six-character code. -/
theorem generateOtp_spec_witness : (generateOtp ((1 : Nat) / 2 ^ 1)).length = 6 :=
  (generateOtp_spec 1 1 (by decide) (by norm_num)).2.2.2.2.1

/-! ## resend-otp -/

/-- C4, as stated, fails when the generator returns the code already stored:
with `Math.random()` giving `0` the resend for `dave` succeeds and stores
`"100000"` again, and a verify-otp request with the old code `"100000"` issued
right afterwards is answered 200, not 400. -/
theorem resendOtp_same_code_accepted :
    dave.otp = .str "100000" ∧
    (resendOtp sampleEnv [root, dave] ⟨.str "dave", .str "d@x.com"⟩).res =
      Response.msg 200 "OTP resent successfully" ∧
    (resendOtp sampleEnv [root, dave] ⟨.str "dave", .str "d@x.com"⟩).store =
      [root, rotateOtp dave "100000" 1300000] ∧
    (verifyOtp sampleEnv (resendOtp sampleEnv [root, dave] ⟨.str "dave", .str "d@x.com"⟩).store
        ⟨.str "dave", .str "100000"⟩).res = Response.msg 200 "OTP verified successfully" := by
  have hgen : generateOtp sampleEnv.random = "100000" := generateOtp_zero
  have hres : resendOtp sampleEnv [root, dave] ⟨.str "dave", .str "d@x.com"⟩ =
      ⟨Response.msg 200 "OTP resent successfully", [root, rotateOtp dave "100000" 1300000],
        [(.str "d@x.com", "100000")]⟩ := by
    unfold resendOtp
    rw [hgen]
    decide
  rw [hres]
  decide

/-- C4 amended: for an unverified record with stored code `cOld` that both
lookups select (by username and email, and by username alone), a successful
resend-otp request stores the newly generated code `cNew` with expiry five
minutes after the current time; a verify-otp request with `cOld` issued
afterwards is answered 400 "Invalid or expired OTP" provided `cOld` differs
from `cNew`; and a verify-otp request with `cNew` issued no later than the new
expiry is answered 200. -/
theorem resendOtp_rotates (env : Env) (store : List User) (b : ResendBody)
    (i : Nat) (u : User) (cOld : String)
    (hfind : findOne (byUsernameAndEmail b.username b.email) store = some (i, u))
    (hsame : findOne (byUsername b.username) store = some (i, u))
    (hunv : u.isVerified = false) (hold : u.otp = .str cOld)
    (hfindOk : env.findOk = true) (hsaveOk : env.saveOk = true)
    (hsendOk : env.sendOk = true) :
    (resendOtp env store b).res = Response.msg 200 "OTP resent successfully" ∧
    (resendOtp env store b).store[i]? =
      some { u with otp := .str (generateOtp env.random),
                    otpExpiry := .date (env.now + 5 * 60 * 1000) } ∧
    (∀ env2 : Env, env2.findOk = true → cOld ≠ generateOtp env.random →
      verifyOtp env2 (resendOtp env store b).store ⟨b.username, .str cOld⟩ =
        ⟨Response.msg 400 "Invalid or expired OTP", (resendOtp env store b).store, []⟩) ∧
    (∀ env2 : Env, env2.findOk = true → env2.saveOk = true →
      env2.now ≤ env.now + 5 * 60 * 1000 →
      (verifyOtp env2 (resendOtp env store b).store
        ⟨b.username, .str (generateOtp env.random)⟩).res =
        Response.msg 200 "OTP verified successfully") := by
  have _ := hold
  have hout : resendOtp env store b =
      ⟨Response.msg 200 "OTP resent successfully",
        store.set i (rotateOtp u (generateOtp env.random) (env.now + otpWindow)),
        [(b.email, generateOtp env.random)]⟩ := by
    simp [resendOtp, hfind, hunv, hfindOk, hsaveOk, hsendOk]
  obtain ⟨hget, hp⟩ := findOne_some hsame
  have hi : i < store.length := by
    rcases Nat.lt_or_ge i store.length with h | h
    · exact h
    · rw [List.getElem?_eq_none h] at hget; cases hget
  have hp2 : byUsername b.username
      (rotateOtp u (generateOtp env.random) (env.now + otpWindow)) = true := by
    simpa [byUsername, rotateOtp] using hp
  have hf := findOne_set hsame hp2
  have hv : (rotateOtp u (generateOtp env.random) (env.now + otpWindow)).isVerified = false :=
    hunv
  have ho : (rotateOtp u (generateOtp env.random) (env.now + otpWindow)).otp =
      .str (generateOtp env.random) := rfl
  have he : (rotateOtp u (generateOtp env.random) (env.now + otpWindow)).otpExpiry =
      .date (env.now + otpWindow) := rfl
  rw [hout]
  refine ⟨rfl, ?_, ?_, ?_⟩
  · simp only [List.getElem?_set, hi, if_true]
    rfl
  · intro env2 h2 hne
    have hne2 : JsVal.strictEq (JsVal.str (generateOtp env.random)) (JsVal.str cOld) = false := by
      simpa [JsVal.strictEq] using Ne.symm hne
    simp [verifyOtp, h2, hf, hv, ho, hne2]
  · intro env2 h2 hs hnow
    have hlt : (Expiry.date (env.now + otpWindow)).ltDate env2.now = false := by
      simpa [Expiry.ltDate, otpWindow] using hnow
    simp [verifyOtp, h2, hs, hf, hv, ho, he, hlt, JsVal.strictEq]

/-- A concrete instance: a resend for `dave` that draws a fresh
code. -/
theorem resendOtp_rotates_witness :
    (resendOtp laterEnv [root, dave] ⟨.str "dave", .str "d@x.com"⟩).res =
      Response.msg 200 "OTP resent successfully" :=
  (resendOtp_rotates laterEnv [root, dave] ⟨.str "dave", .str "d@x.com"⟩ 1 dave "100000"
    (by decide) (by decide) (by decide) (by decide) (by decide) (by decide) (by decide)).1

/-! ## authorizeRoles -/

theorem splitChars_ne_nil (sep : Char) (l : List Char) : splitChars sep l ≠ [] := by
  cases l with
  | nil => simp [splitChars]
  | cons c cs =>
    unfold splitChars
    split
    · simp
    · split <;> simp

theorem splitChars_cons_ne {sep c : Char} (h : c ≠ sep) (cs : List Char) :
    ∃ seg segs, splitChars sep cs = seg :: segs ∧
      splitChars sep (c :: cs) = (c :: seg) :: segs := by
  cases hs : splitChars sep cs with
  | nil => exact absurd hs (splitChars_ne_nil sep cs)
  | cons seg segs =>
    refine ⟨seg, segs, rfl, ?_⟩
    rw [splitChars]
    simp [h, hs]

/-- A header that starts with `Bearer ` has a second space-separated segment. -/
theorem bearer_has_token (h : String) (hb : startsWith h "Bearer " = true) :
    ∃ token, (jsSplit h ' ')[1]? = some token := by
  unfold startsWith at hb
  obtain ⟨t, ht⟩ := List.isPrefixOf_iff_prefix.mp hb
  have hdata : h.data = 'B' :: 'e' :: 'a' :: 'r' :: 'e' :: 'r' :: ' ' :: t := by
    rw [← ht]
    rfl
  obtain ⟨s0, r0, h0, -⟩ := splitChars_cons_ne (show 'r' ≠ ' ' by decide) t
  have hsp : splitChars ' ' (' ' :: t) = [] :: s0 :: r0 := by
    rw [splitChars]
    simp [h0]
  obtain ⟨s1, r1, h1, e1⟩ := splitChars_cons_ne (show 'r' ≠ ' ' by decide) (' ' :: t)
  obtain ⟨s2, r2, h2, e2⟩ := splitChars_cons_ne (show 'e' ≠ ' ' by decide) ('r' :: ' ' :: t)
  obtain ⟨s3, r3, h3, e3⟩ :=
    splitChars_cons_ne (show 'r' ≠ ' ' by decide) ('e' :: 'r' :: ' ' :: t)
  obtain ⟨s4, r4, h4, e4⟩ :=
    splitChars_cons_ne (show 'a' ≠ ' ' by decide) ('r' :: 'e' :: 'r' :: ' ' :: t)
  obtain ⟨s5, r5, h5, e5⟩ :=
    splitChars_cons_ne (show 'e' ≠ ' ' by decide) ('a' :: 'r' :: 'e' :: 'r' :: ' ' :: t)
  obtain ⟨s6, r6, h6, e6⟩ :=
    splitChars_cons_ne (show 'B' ≠ ' ' by decide) ('e' :: 'a' :: 'r' :: 'e' :: 'r' :: ' ' :: t)
  rw [hsp] at h1
  cases h1
  rw [e1] at h2
  cases h2
  rw [e2] at h3
  cases h3
  rw [e3] at h4
  cases h4
  rw [e4] at h5
  cases h5
  rw [e5] at h6
  cases h6
  refine ⟨String.mk s0, ?_⟩
  simp [jsSplit, hdata, e6]

/-- C6: the filter returned by `authorizeRoles(allowedRoles)`, with token
verification an abstract function that returns claims or fails, answers 401
when the Authorization header is missing or does not start with `Bearer `;
otherwise the header has a second space-separated segment, the token, and the
filter answers 401 when its verification fails, 403 when the decoded role is
not in `allowedRoles`, and otherwise writes no response, sets `req.user` to the
decoded claims and calls `next` exactly once. In the 401 and 403 cases `next`
is not called and `req.user` is not set. -/
theorem authorizeRoles_spec (verify : String → Option Claims) (allowedRoles : List JsVal)
    (authHeader : Option String) :
    ((authHeader = none ∨ ∃ h, authHeader = some h ∧ startsWith h "Bearer " = false) →
      authorizeRoles verify allowedRoles authHeader =
        ⟨some (Response.msg 401 "Unauthorized: No token provided"), none, 0⟩) ∧
    (∀ h, authHeader = some h → startsWith h "Bearer " = true →
      ∃ token, (jsSplit h ' ')[1]? = some token ∧
        (verify token = none →
          authorizeRoles verify allowedRoles authHeader =
            ⟨some (Response.msg 401 "Unauthorized: Invalid token"), none, 0⟩) ∧
        (∀ decoded, verify token = some decoded → decoded.role ∉ allowedRoles →
          authorizeRoles verify allowedRoles authHeader =
            ⟨some (Response.msg 403 "Forbidden: Insufficient permissions"), none, 0⟩) ∧
        (∀ decoded, verify token = some decoded → decoded.role ∈ allowedRoles →
          authorizeRoles verify allowedRoles authHeader = ⟨none, some decoded, 1⟩)) := by
  refine ⟨?_, ?_⟩
  · rintro (rfl | ⟨h, rfl, hb⟩)
    · rfl
    · simp [authorizeRoles, hb]
  · rintro h rfl hb
    obtain ⟨token, htok⟩ := bearer_has_token h hb
    have hne : h ≠ "" := by
      rintro rfl
      revert hb
      decide
    refine ⟨token, htok, ?_, ?_, ?_⟩
    · intro hv
      simp [authorizeRoles, hb, hne, htok, hv]
    · intro decoded hv hr
      simp [authorizeRoles, hb, hne, htok, hv, hr]
    · intro decoded hv hr
      simp [authorizeRoles, hb, hne, htok, hv, hr]

/-- A concrete instance: a donor's token passes a filter for donors and
recipients, and a header without the `Bearer ` scheme is refused with 401. -/
theorem authorizeRoles_spec_witness :
    authorizeRoles sampleVerify [.str "donor", .str "recipient"] (some "Bearer good") =
      ⟨none, some ⟨5, .str "donor"⟩, 1⟩ ∧
    authorizeRoles sampleVerify [.str "admin"] (some "Token good") =
      ⟨some (Response.msg 401 "Unauthorized: No token provided"), none, 0⟩ := by
  obtain ⟨token, htok, -, -, hacc⟩ :=
    (authorizeRoles_spec sampleVerify [.str "donor", .str "recipient"]
      (some "Bearer good")).2 "Bearer good" rfl (by decide)
  have hgood : (jsSplit "Bearer good" ' ')[1]? = some "good" := by decide
  rw [hgood] at htok
  cases htok
  exact ⟨hacc ⟨5, .str "donor"⟩ (by decide) (by decide),
    (authorizeRoles_spec sampleVerify [.str "admin"] (some "Token good")).1
      (Or.inr ⟨"Token good", rfl, by decide⟩)⟩

end MiniProject
